import Mathlib

/-!
# Verification of the Zomato dashboard's filter-and-aggregate pipeline

A shallow embedding of `app.py` (a Streamlit/pandas dashboard) and proofs
about its filter stage, aggregation stage and error handling.

Modelling conventions:
* A dataframe row is a `Row` record; the cleaned dataset's dtypes are
  `float64` for `rate` and `cost` and `object` (string) for the other
  columns, so the numeric columns are modelled with `ℚ` (exact rational
  stand-in for float arithmetic) and the rest with `String`.
* A dataframe is a `List Row` (pandas keeps rows ordered; identity is row
  position).
* pandas `Series.unique()` returns the distinct values in order of first
  occurrence; it is modelled by `uniques` below.
* Fallible reads (`pd.read_parquet` / `pd.read_csv`) are modelled as
  `Option`-valued inputs, and the `try/except` as a `match` on them.
-/

namespace Zomato

open List

/-- One row of the cleaned Zomato dataframe, with the columns the app uses
(`app.py` lines 69-182): `location`, `rest_type`, `online_order`,
`book_table` are `object` columns, `rate` and `cost` are numeric. -/
structure Row where
  location : String
  rest_type : String
  online_order : String
  book_table : String
  rate : ℚ
  cost : ℚ
deriving DecidableEq

/-- pandas storage dtypes relevant to the app (`select_dtypes` at line 167 and
the `.dtype == 'object'` tests at lines 114 and 123). -/
inductive Dtype where
  | object
  | float64
  | int64
deriving DecidableEq

/-- The filter stage, `app.py` lines 71-74:
`df[df['location'].isin(selected_location)]` when the multiselect is
non-empty, `df.copy()` (the full dataset) when it is empty. -/
def dfFiltered (df : List Row) (sel : List String) : List Row :=
  if sel ≠ [] then df.filter (fun r => decide (r.location ∈ sel)) else df

/-- Helper for `uniques`: distinct values of the suffix not already in
`seen`, in order of first occurrence (pandas `unique()` keeps a hash set of
values already emitted). -/
def uniquesAux {α : Type} [DecidableEq α] (seen : List α) : List α → List α
  | [] => []
  | x :: xs => if x ∈ seen then uniquesAux seen xs else x :: uniquesAux (x :: seen) xs

/-- pandas `Series.unique()`: the distinct values of a column in order of
first occurrence. -/
def uniques {α : Type} [DecidableEq α] (xs : List α) : List α :=
  uniquesAux [] xs

theorem mem_uniquesAux {α : Type} [DecidableEq α] {a : α} :
    ∀ (xs seen : List α), a ∈ uniquesAux seen xs ↔ a ∈ xs ∧ a ∉ seen := by
  intro xs
  induction xs with
  | nil => intro seen; simp [uniquesAux]
  | cons x xs ih =>
    intro seen
    by_cases hx : x ∈ seen
    · rw [uniquesAux, if_pos hx, ih]
      constructor
      · rintro ⟨h1, h2⟩; exact ⟨List.mem_cons_of_mem _ h1, h2⟩
      · rintro ⟨h1, h2⟩
        rcases List.mem_cons.mp h1 with rfl | h1
        · exact absurd hx h2
        · exact ⟨h1, h2⟩
    · rw [uniquesAux, if_neg hx]
      constructor
      · intro h
        rcases List.mem_cons.mp h with rfl | h
        · exact ⟨List.mem_cons_self _ _, hx⟩
        · rw [ih] at h
          refine ⟨List.mem_cons_of_mem _ h.1, ?_⟩
          intro hs
          exact h.2 (List.mem_cons_of_mem _ hs)
      · rintro ⟨h1, h2⟩
        rcases List.mem_cons.mp h1 with rfl | h1
        · exact List.mem_cons_self _ _
        · by_cases hax : a = x
          · subst hax; exact List.mem_cons_self _ _
          · refine List.mem_cons_of_mem _ ?_
            rw [ih]
            refine ⟨h1, ?_⟩
            intro hs
            rcases List.mem_cons.mp hs with h | h
            · exact hax h
            · exact h2 h

theorem mem_uniques {α : Type} [DecidableEq α] {a : α} {xs : List α} :
    a ∈ uniques xs ↔ a ∈ xs := by
  rw [uniques, mem_uniquesAux]
  simp

theorem nodup_uniquesAux {α : Type} [DecidableEq α] :
    ∀ (xs seen : List α), (uniquesAux seen xs).Nodup := by
  intro xs
  induction xs with
  | nil => intro seen; simp [uniquesAux]
  | cons x xs ih =>
    intro seen
    by_cases hx : x ∈ seen
    · rw [uniquesAux, if_pos hx]; exact ih seen
    · rw [uniquesAux, if_neg hx]
      refine List.nodup_cons.mpr ⟨?_, ih (x :: seen)⟩
      intro hmem
      exact ((mem_uniquesAux xs (x :: seen)).mp hmem).2 (List.mem_cons_self _ _)

theorem nodup_uniques {α : Type} [DecidableEq α] (xs : List α) :
    (uniques xs).Nodup :=
  nodup_uniquesAux xs []

theorem uniques_perm_dedup {α : Type} [DecidableEq α] (xs : List α) :
    uniques xs ~ xs.dedup := by
  rw [List.perm_ext_iff_of_nodup (nodup_uniques xs) (List.nodup_dedup xs)]
  intro a
  rw [mem_uniques, List.mem_dedup]

/-- One concrete `Series.value_counts()` table (`app.py` lines 144 and
178): the distinct values of the column paired with their frequencies,
sorted by frequency in descending order.  pandas guarantees only the
descending count order — the relative order of equal-count values is
implementation-defined (hash-ordered keys sorted by an unstable sort) —
so this deterministic representative (distinct values in first-occurrence
order, then one particular descending sort) is used only where the app is
insensitive to tie order (the treemap's top-10 `isin` restriction, which
compares against whatever list the same call produced).  The contract that
`value_counts()` actually guarantees is `IsValueCountsOutput` below. -/
def valueCountsDesc {α : Type} [DecidableEq α] (xs : List α) : List (α × Nat) :=
  ((uniques xs).map (fun v => (v, xs.count v))).insertionSort
    (fun a b => b.2 ≤ a.2)

/-- `value_counts().head(n)` (`app.py` lines 144 and 178): the first `n`
entries of the concrete representative table. -/
def topN {α : Type} [DecidableEq α] (xs : List α) (n : Nat) : List (α × Nat) :=
  (valueCountsDesc xs).take n

/-- Modelled from the library contract (pandas is not part of this
repository's sources): `Series.value_counts()` documents that the result
pairs each distinct value of the column with its frequency and is sorted
in descending order of frequency; it gives no guarantee on the relative
order of equal-count values.  An admissible output is therefore any
permutation of the distinct `(value, count)` pairs that is sorted
descending by count. -/
def IsValueCountsOutput {α : Type} [DecidableEq α] (xs : List α)
    (out : List (α × Nat)) : Prop :=
  out ~ (uniques xs).map (fun v => (v, xs.count v))
  ∧ out.Pairwise (fun a b => b.2 ≤ a.2)

/-- An admissible output of `value_counts().head(n)`: the first `n` entries
of some admissible `value_counts()` output. -/
def IsTopNOutput {α : Type} [DecidableEq α] (xs : List α) (n : Nat)
    (out : List (α × Nat)) : Prop :=
  ∃ full, IsValueCountsOutput xs full ∧ out = full.take n

theorem valueCountsDesc_perm {α : Type} [DecidableEq α] (xs : List α) :
    valueCountsDesc xs ~ (uniques xs).map (fun v => (v, xs.count v)) :=
  List.perm_insertionSort _ _

theorem valueCountsDesc_sorted {α : Type} [DecidableEq α] (xs : List α) :
    (valueCountsDesc xs).Pairwise (fun a b => b.2 ≤ a.2) := by
  have htot : IsTotal (α × Nat) (fun a b => b.2 ≤ a.2) :=
    ⟨fun p q => Nat.le_total q.2 p.2⟩
  have htrans : IsTrans (α × Nat) (fun a b => b.2 ≤ a.2) :=
    ⟨fun _ _ _ h1 h2 => Nat.le_trans h2 h1⟩
  exact List.sorted_insertionSort _ _

/-- The counts paired with the distinct values of a column sum to the
length of the column. -/
theorem countPairs_sum {α : Type} [DecidableEq α] (xs : List α) :
    (((uniques xs).map (fun v => (v, xs.count v))).map Prod.snd).sum
      = xs.length := by
  rw [List.map_map]
  have h : ((uniques xs).map (Prod.snd ∘ fun v => (v, xs.count v))).sum
      = (xs.dedup.map (fun v => xs.count v)).sum :=
    ((uniques_perm_dedup xs).map _).sum_eq
  rw [h]
  exact List.sum_map_count_dedup_eq_length xs

/-- The concrete representative table satisfies the `value_counts()`
contract. -/
theorem isValueCountsOutput_valueCountsDesc {α : Type} [DecidableEq α]
    (xs : List α) : IsValueCountsOutput xs (valueCountsDesc xs) :=
  ⟨valueCountsDesc_perm xs, valueCountsDesc_sorted xs⟩

/-- `topN` is an admissible `value_counts().head(n)` output. -/
theorem isTopNOutput_topN {α : Type} [DecidableEq α] (xs : List α) (n : Nat) :
    IsTopNOutput xs n (topN xs n) :=
  ⟨valueCountsDesc xs, isValueCountsOutput_valueCountsDesc xs, rfl⟩

/-! ### Univariate analysis (page 2) -/

/-- The five columns offered by the univariate `selectbox`
(`app.py` line 109). -/
inductive UniCol where
  | rate
  | cost
  | online_order
  | book_table
  | rest_type
deriving DecidableEq

/-- The pandas storage dtype of each selectable column in the cleaned
dataset: `rate` and `cost` are numeric, the rest hold strings. -/
def colDtype : UniCol → Dtype
  | .rate => .float64
  | .cost => .float64
  | .online_order => .object
  | .book_table => .object
  | .rest_type => .object

/-- `len(df_filtered[col].unique())` for each selectable column
(`app.py` line 114). -/
def colUniqueCount (rows : List Row) : UniCol → Nat
  | .rate => (uniques (rows.map Row.rate)).length
  | .cost => (uniques (rows.map Row.cost)).length
  | .online_order => (uniques (rows.map Row.online_order)).length
  | .book_table => (uniques (rows.map Row.book_table)).length
  | .rest_type => (uniques (rows.map Row.rest_type)).length

/-- The chart-type decision, `app.py` line 114: a pie chart is drawn iff
`df_filtered[col].dtype == 'object' or len(df_filtered[col].unique()) < 20`;
otherwise a histogram. -/
def chartIsPie (rows : List Row) (col : UniCol) : Bool :=
  (colDtype col == Dtype.object) || decide (colUniqueCount rows col < 20)

/-- The stats-display decision, `app.py` line 123: `describe()` is shown iff
`df_filtered[col].dtype != 'object'`; otherwise `value_counts()`. -/
def statsShowsDescribe (col : UniCol) : Bool :=
  colDtype col != Dtype.object

/-! ### Concrete rows used by the closed witness/counterexample theorems -/

/-- A concrete row (location "A"). -/
def wr1 : Row :=
  { location := "A", rest_type := "Casual Dining", online_order := "Yes"
    book_table := "No", rate := 4, cost := 800 }

/-- A concrete row (location "B"). -/
def wr2 : Row :=
  { location := "B", rest_type := "Cafe", online_order := "No"
    book_table := "No", rate := 3, cost := 400 }

/-! ### Aggregation stage: group means and the treemap (page 4) -/

/-- pandas `Series.mean()`: the sum divided by the length.  (In `ℚ` the
empty-list case yields `0` by division by zero; the app only takes means of
non-empty groups, and no claim concerns the empty mean.) -/
def colMean (xs : List ℚ) : ℚ :=
  xs.sum / xs.length

/-- The group keys of `df_filtered.groupby(['location', 'rest_type'])`
(`app.py` line 176): the distinct `(location, rest_type)` pairs actually
present in the filtered view.  (pandas lists the groups sorted by key; the
claims under verification are membership statements, invariant under the
order of the group table, so first-occurrence order is used.) -/
def groupKeys (rows : List Row) : List (String × String) :=
  uniques (rows.map (fun r => (r.location, r.rest_type)))

/-- The rows belonging to one `(location, rest_type)` group. -/
def groupRows (rows : List Row) (k : String × String) : List Row :=
  rows.filter (fun r => decide (r.location = k.1) && decide (r.rest_type = k.2))

/-- `groupby(['location', 'rest_type'])['cost'].mean()` for a single group. -/
def groupMeanCost (rows : List Row) (k : String × String) : ℚ :=
  colMean ((groupRows rows k).map Row.cost)

/-- `df_filtered.groupby(['location', 'rest_type'])['cost'].mean().reset_index()`
(`app.py` line 176): one `(location, rest_type, mean cost)` entry per group
present in the filtered view. -/
def groupMean (rows : List Row) : List (String × String × ℚ) :=
  (groupKeys rows).map (fun k => (k.1, k.2, groupMeanCost rows k))

/-- `df_filtered['location'].value_counts().head(10).index`
(`app.py` line 178): the top-10 most frequent locations of the filtered
view. -/
def top10Locations (rows : List Row) : List String :=
  (topN (rows.map Row.location) 10).map Prod.fst

/-- `treemap_df = treemap_df[treemap_df['location'].isin(top_locations_list)]`
(`app.py` lines 176-179): the group-mean table restricted to the top-10
locations. -/
def treemapDf (rows : List Row) : List (String × String × ℚ) :=
  (groupMean rows).filter (fun e => decide (e.1 ∈ top10Locations rows))

/-- The treemap branch, `app.py` lines 175-185: a chart when the filtered
view is non-empty, a warning otherwise. -/
inductive TreemapOut where
  | chart : List (String × String × ℚ) → TreemapOut
  | warning : TreemapOut
deriving DecidableEq

/-- `if not df_filtered.empty: ... px.treemap(treemap_df, ...) else:
st.warning(...)` (`app.py` lines 175-185). -/
def treemapRender (rows : List Row) : TreemapOut :=
  if rows ≠ [] then .chart (treemapDf rows) else .warning

/-! ### Correlation heatmap (page 4)

`numeric_df = df_filtered.select_dtypes(include=['float64', 'int64'])`
keeps exactly the `rate` and `cost` columns; `numeric_df.corr()` is the
matrix of pairwise Pearson coefficients.  The coefficient is
`Σ(x-x̄)(y-ȳ) / sqrt(Σ(x-x̄)² · Σ(y-ȳ)²)` (the 1/n or 1/(n-1)
normalisations cancel); a cell whose column has zero variance (in
particular any cell of a single-row or empty view) is NaN, modelled as
`none`. -/

/-- The column with its mean subtracted from every entry. -/
def demean (xs : List ℚ) : List ℚ :=
  xs.map (fun x => x - colMean xs)

/-- Sum of pointwise products. -/
def dotSum (xs ys : List ℚ) : ℚ :=
  ((xs.zip ys).map (fun p => p.1 * p.2)).sum

/-- `Σ (x - x̄)(y - ȳ)`: the unnormalised covariance. -/
def covSum (xs ys : List ℚ) : ℚ :=
  dotSum (demean xs) (demean ys)

/-- `Σ (x - x̄)²`: the unnormalised variance. -/
def varSum (xs : List ℚ) : ℚ :=
  covSum xs xs

/-- One cell of `numeric_df.corr()`: NaN (`none`) when either column has
zero variance, the Pearson coefficient otherwise. -/
noncomputable def corrCell (xs ys : List ℚ) : Option ℝ :=
  if varSum xs = 0 ∨ varSum ys = 0 then none
  else some ((covSum xs ys : ℝ) / Real.sqrt ((varSum xs : ℝ) * (varSum ys : ℝ)))

/-- The numeric columns of the filtered view selected at `app.py` line 167:
`rate` and `cost`. -/
def numericCols (rows : List Row) : List (List ℚ) :=
  [rows.map Row.rate, rows.map Row.cost]

/-- `corr = numeric_df.corr()` (`app.py` line 168), indexed by column
position. -/
noncomputable def corrMatrix (rows : List Row) (i j : Nat) : Option ℝ :=
  corrCell ((numericCols rows).getD i []) ((numericCols rows).getD j [])

/-! ### Loader and render pass -/

/-- `app.py` lines 51-53: drop the `'Unnamed: 0'` artifact column if it is
present.  A raw dataframe is modelled as its list of named columns. -/
def dropUnnamed (df : List (String × List String)) : List (String × List String) :=
  if df.any (fun c => c.1 == "Unnamed: 0") then
    df.filter (fun c => !(c.1 == "Unnamed: 0"))
  else df

/-- `load_data` (`app.py` lines 43-54).  The two file reads are modelled as
`Option`-valued inputs (`none` = the read raises); the `try/except` first
consults the parquet read, then the csv read, and if both fail the csv
exception propagates as an `Except.error`. -/
def load_data (parquetRead csvRead : Option (List (String × List String))) :
    Except String (List (String × List String)) :=
  match parquetRead with
  | some d => .ok (dropUnnamed d)
  | none =>
    match csvRead with
    | some d => .ok (dropUnnamed d)
    | none => .error "read_csv: cleaned_df.csv could not be read"

/-- The user-facing message of `st.error` at `app.py` line 76. -/
def loadErrorMsg : String := "Data could not be loaded. Please check the file."

/-- The four pages of the sidebar radio (`app.py` line 61). -/
inductive Page where
  | home
  | univariate
  | bivariate
  | multivariate
deriving DecidableEq

/-- The four KPI scalars of the Home page (`app.py` lines 88-96). -/
structure HomeKPIs where
  totalRestaurants : Nat
  avgRate : ℚ
  avgCost : ℚ
  onlineDelivery : Nat
deriving DecidableEq

/-- `app.py` lines 88-96: row count, mean rating, mean cost and the number
of rows with `online_order == 'Yes'`. -/
def homeKPIs (rows : List Row) : HomeKPIs where
  totalRestaurants := rows.length
  avgRate := colMean (rows.map Row.rate)
  avgCost := colMean (rows.map Row.cost)
  onlineDelivery := (rows.filter (fun r => decide (r.online_order = "Yes"))).length

/-- The aggregation outputs each page computes from the filtered view. -/
inductive PageOut where
  | homeOut : HomeKPIs → PageOut
  | uniOut : Bool → Bool → PageOut
  | biOut : List (String × Nat) → PageOut
  | multiOut : Option ℝ → TreemapOut → PageOut

/-- What each page computes from the filtered view (`app.py` lines 82-185):
the Home KPIs, the univariate chart/stats decisions, the bivariate top-10
location counts, or the heatmap cell together with the treemap. -/
noncomputable def renderPage (page : Page) (col : UniCol) (rows : List Row) : PageOut :=
  match page with
  | .home => .homeOut (homeKPIs rows)
  | .univariate => .uniOut (chartIsPie rows col) (statsShowsDescribe col)
  | .bivariate => .biOut (topN (rows.map Row.location) 10)
  | .multivariate => .multiOut (corrMatrix rows 0 1) (treemapRender rows)

/-- One render pass, `app.py` lines 68-185: if the loaded dataset is empty,
`st.error` plus `st.stop()` end the pass before the filter stage
(`Except.error`); otherwise the filter stage runs and the selected page is
rendered from the filtered view. -/
noncomputable def renderPass (df : List Row) (sel : List String) (page : Page)
    (col : UniCol) : Except String PageOut :=
  if df ≠ [] then .ok (renderPage page col (dfFiltered df sel))
  else .error loadErrorMsg

/-! ## Claim theorems -/

/-- C1: for every dataset and every non-empty selection set, the filter
stage returns exactly the rows whose location is a member of the selection
(characterised by multiplicity: each row keeps its full multiplicity when
its location is selected and is absent otherwise); and for the empty
selection it returns the full dataset unchanged, never an empty result. -/
theorem filter_stage_spec (df : List Row) (sel : List String) :
    (sel ≠ [] → ∀ r : Row,
      (dfFiltered df sel).count r =
        if r.location ∈ sel then df.count r else 0)
    ∧ dfFiltered df [] = df := by
  constructor
  · intro hsel r
    rw [dfFiltered, if_pos hsel]
    by_cases hloc : r.location ∈ sel
    · rw [if_pos hloc]
      exact List.count_filter (by simpa using hloc)
    · rw [if_neg hloc]
      refine List.count_eq_zero.mpr ?_
      intro hmem
      exact hloc (by simpa using (List.mem_filter.mp hmem).2)
  · rw [dfFiltered, if_neg (by simp)]

/-- Witness for C1 at a concrete dataset and selection. -/
theorem filter_stage_spec_witness :
    (dfFiltered [wr1, wr2] ["A"]).count wr1 =
      if wr1.location ∈ ["A"] then ([wr1, wr2] : List Row).count wr1 else 0 :=
  (filter_stage_spec [wr1, wr2] ["A"]).1 (by decide) wr1

/-- C9: the filter stage preserves relative row order and row contents: the
filtered view is an ordered subsequence (`List.Sublist`) of the dataset. -/
theorem filter_stage_sublist (df : List Row) (sel : List String) :
    dfFiltered df sel <+ df := by
  rw [dfFiltered]
  split
  · exact List.filter_sublist df
  · exact List.Sublist.refl df

/-- C2, counterexample: the two decisions do NOT use the same predicate.
On a single-row filtered view the numeric `rate` column has one distinct
value, so the chart decision (line 114) treats it as categorical and draws
a pie chart, while the stats decision (line 123) branches only on the
dtype and shows `describe()` (numeric summary stats).  The two decisions
disagree at this input. -/
theorem univariate_decisions_counterexample :
    chartIsPie [wr1] UniCol.rate = true
    ∧ statsShowsDescribe UniCol.rate = true
    ∧ chartIsPie [wr1] UniCol.rate ≠ (!statsShowsDescribe UniCol.rate) := by
  have h1 : chartIsPie [wr1] UniCol.rate = true := by
    rw [chartIsPie]
    have h : colUniqueCount [wr1] UniCol.rate = 1 := by
      rw [colUniqueCount]; rfl
    rw [h]; rfl
  refine ⟨h1, by decide, ?_⟩
  rw [h1]
  decide

/-- C2, amended: the chart decision (line 114) is categorical iff the dtype
is non-numeric OR the distinct-value count is below 20, while the stats
decision (line 123) branches on the dtype alone; the two decisions agree
exactly on the columns that are object-typed or have at least 20 distinct
values (they disagree on numeric columns with fewer than 20 distinct
values). -/
theorem univariate_decisions_agree_iff (rows : List Row) (col : UniCol) :
    (chartIsPie rows col = (!statsShowsDescribe col))
      ↔ (colDtype col = Dtype.object ∨ 20 ≤ colUniqueCount rows col) := by
  rw [chartIsPie, statsShowsDescribe]
  cases col <;>
    simp [colDtype, Nat.not_lt, show (Dtype.float64 == Dtype.object) = false from rfl,
      show (Dtype.float64 != Dtype.object) = true from rfl]

/-- C3, counterexample: the tie-breaking clause of the claim fails.
`value_counts()` guarantees only descending count order (its key
enumeration is hash-ordered and its sort is unstable, so equal-count ties
carry no encounter-order guarantee).  At the concrete filtered view
`[wr1, wr2]` the locations are `["A", "B"]` with equal counts and `"A"`
encountered first, yet `[("B", 1), ("A", 1)]` is an admissible
`value_counts().head(10)` output of the program — one in which `("A", 1)`
does NOT precede `("B", 1)`. -/
theorem topN_ties_counterexample :
    IsTopNOutput ([wr1, wr2].map Row.location) 10 [("B", 1), ("A", 1)]
    ∧ ([wr1, wr2].map Row.location).indexOf "A"
        < ([wr1, wr2].map Row.location).indexOf "B"
    ∧ ¬ [("A", 1), ("B", 1)] <+ [("B", 1), ("A", 1)] :=
  ⟨⟨[("B", 1), ("A", 1)], ⟨by decide, by decide⟩, rfl⟩, by decide, by decide⟩

/-- C3, amended: every admissible `value_counts().head(10)` output on the
location column of a filtered view has at most 10 entries, is sorted
descending by count, and its counts sum to at most the row count of the
filtered view.  (The ties-broken-by-encounter-order clause is dropped:
the program gives no tie-order guarantee.) -/
theorem topN_locations_amended (rows : List Row) (out : List (String × Nat))
    (h : IsTopNOutput (rows.map Row.location) 10 out) :
    out.length ≤ 10
    ∧ out.Pairwise (fun a b => b.2 ≤ a.2)
    ∧ (out.map Prod.snd).sum ≤ rows.length := by
  rcases h with ⟨full, ⟨hperm, hsort⟩, rfl⟩
  refine ⟨List.length_take_le 10 _, hsort.sublist (List.take_sublist 10 _), ?_⟩
  have hsum : (full.map Prod.snd).sum = rows.length := by
    rw [(hperm.map Prod.snd).sum_eq, countPairs_sum, List.length_map]
  calc ((full.take 10).map Prod.snd).sum
      ≤ ((full.take 10).map Prod.snd).sum + ((full.drop 10).map Prod.snd).sum :=
        Nat.le_add_right _ _
    _ = (full.map Prod.snd).sum := by
        rw [← List.sum_append, ← List.map_append, List.take_append_drop]
    _ = rows.length := hsum

/-- Witness for C3 (amended) at a concrete view and a concrete admissible
output. -/
theorem topN_locations_amended_witness :
    ([("A", 1), ("B", 1)] : List (String × Nat)).length ≤ 10
    ∧ ([("A", 1), ("B", 1)] : List (String × Nat)).Pairwise (fun a b => b.2 ≤ a.2)
    ∧ (([("A", 1), ("B", 1)] : List (String × Nat)).map Prod.snd).sum
        ≤ ([wr1, wr2] : List Row).length :=
  topN_locations_amended [wr1, wr2] [("A", 1), ("B", 1)]
    ⟨[("A", 1), ("B", 1)], ⟨by decide, by decide⟩, rfl⟩

/-- C4: the treemap table contains `(l, t, m)` exactly when some row of the
filtered view has location `l` and restaurant type `t`, `l` is among the
top-10 most frequent locations of the filtered view (computed by count,
independently of the group-mean computation), and `m` is the mean cost of
the `(l, t)` group.  In particular a `(location, type)` pair with no rows
is absent from the table, and every case is total (no error). -/
theorem treemap_spec (rows : List Row) (l t : String) (m : ℚ) :
    (l, t, m) ∈ treemapDf rows ↔
      ((∃ r ∈ rows, r.location = l ∧ r.rest_type = t)
        ∧ l ∈ top10Locations rows
        ∧ m = groupMeanCost rows (l, t)) := by
  rw [treemapDf, List.mem_filter]
  constructor
  · rintro ⟨hmem, htop⟩
    rw [groupMean, List.mem_map] at hmem
    rcases hmem with ⟨k, hk, hkeq⟩
    rcases k with ⟨k1, k2⟩
    simp only [Prod.mk.injEq] at hkeq
    obtain ⟨hk1, hk2, hk3⟩ := hkeq
    subst hk1
    subst hk2
    rw [groupKeys] at hk
    have hkmem : (k1, k2) ∈ rows.map (fun r => (r.location, r.rest_type)) :=
      mem_uniques.mp hk
    rcases List.mem_map.mp hkmem with ⟨r, hr, hreq⟩
    simp only [Prod.mk.injEq] at hreq
    exact ⟨⟨r, hr, hreq.1, hreq.2⟩, by simpa using htop, hk3.symm⟩
  · rintro ⟨⟨r, hr, hrl, hrt⟩, htop, hm⟩
    refine ⟨?_, by simpa using htop⟩
    rw [groupMean, List.mem_map]
    refine ⟨(l, t), ?_, by rw [hm]⟩
    rw [groupKeys, mem_uniques, List.mem_map]
    exact ⟨r, hr, by rw [hrl, hrt]⟩

theorem dotSum_cons (x y : ℚ) (xs ys : List ℚ) :
    dotSum (x :: xs) (y :: ys) = x * y + dotSum xs ys := by
  simp [dotSum]

theorem dotSum_comm (xs : List ℚ) : ∀ ys : List ℚ, dotSum xs ys = dotSum ys xs := by
  induction xs with
  | nil => intro ys; cases ys <;> simp [dotSum]
  | cons x xs ih =>
    intro ys
    cases ys with
    | nil => simp [dotSum]
    | cons y ys => rw [dotSum_cons, dotSum_cons, ih, mul_comm]

theorem covSum_comm (xs ys : List ℚ) : covSum xs ys = covSum ys xs := by
  rw [covSum, covSum, dotSum_comm]

theorem dotSum_self (xs : List ℚ) : dotSum xs xs = (xs.map (fun x => x * x)).sum := by
  induction xs with
  | nil => simp [dotSum]
  | cons x xs ih => rw [dotSum_cons, ih, List.map_cons, List.sum_cons]

theorem varSum_nonneg (xs : List ℚ) : 0 ≤ varSum xs := by
  rw [varSum, covSum, dotSum_self]
  refine List.sum_nonneg ?_
  intro a ha
  rcases List.mem_map.mp ha with ⟨x, _, rfl⟩
  exact mul_self_nonneg x

theorem corrCell_comm (xs ys : List ℚ) : corrCell xs ys = corrCell ys xs := by
  rw [corrCell, corrCell]
  by_cases h : varSum xs = 0 ∨ varSum ys = 0
  · rw [if_pos h, if_pos h.symm]
  · rw [if_neg h, if_neg (fun hc => h hc.symm)]
    rw [covSum_comm, mul_comm]

theorem corrCell_self (xs : List ℚ) (h : varSum xs ≠ 0) : corrCell xs xs = some 1 := by
  rw [corrCell, if_neg (by simp [h])]
  have hpos : (0 : ℚ) < varSum xs := lt_of_le_of_ne (varSum_nonneg xs) (Ne.symm h)
  have hcast : (0 : ℝ) < (varSum xs : ℝ) := by exact_mod_cast hpos
  rw [show covSum xs xs = varSum xs from rfl, Real.sqrt_mul_self hcast.le,
    div_self (ne_of_gt hcast)]

theorem varSum_singleton (x : ℚ) : varSum [x] = 0 := by
  simp [varSum, covSum, dotSum, demean, colMean]

theorem varSum_nil : varSum [] = 0 := by
  simp [varSum, covSum, dotSum, demean]

/-- C5: the correlation matrix of the numeric columns of any filtered view
is symmetric, and its diagonal entry for any column with nonzero variance
is exactly 1. -/
theorem corr_matrix_spec (rows : List Row) (i j : Nat) :
    corrMatrix rows i j = corrMatrix rows j i
    ∧ (varSum ((numericCols rows).getD i []) ≠ 0 → corrMatrix rows i i = some 1) := by
  constructor
  · rw [corrMatrix, corrMatrix]
    exact corrCell_comm _ _
  · intro h
    rw [corrMatrix]
    exact corrCell_self _ h

/-- Witness for C5 at a concrete two-row view whose `rate` column has
nonzero variance. -/
theorem corr_matrix_spec_witness :
    corrMatrix [wr1, wr2] 0 1 = corrMatrix [wr1, wr2] 1 0
    ∧ corrMatrix [wr1, wr2] 0 0 = some 1 :=
  ⟨(corr_matrix_spec [wr1, wr2] 0 1).1,
    (corr_matrix_spec [wr1, wr2] 0 1).2 (by
      norm_num [numericCols, varSum, covSum, dotSum, demean, colMean, wr1, wr2])⟩

/-- C6: on a single-row filtered view every cell of the correlation matrix
is NaN (`none`, both columns have zero variance), and the computation is
total — no crash.  Out-of-range indices also yield `none` rather than an
error. -/
theorem corr_single_row (r : Row) (i j : Nat) : corrMatrix [r] i j = none := by
  have hv : ∀ k : Nat, varSum ((numericCols [r]).getD k []) = 0 := by
    intro k
    match k with
    | 0 => simpa [numericCols] using varSum_singleton r.rate
    | 1 => simpa [numericCols] using varSum_singleton r.cost
    | Nat.succ (Nat.succ n) => simpa [numericCols] using varSum_nil
  rw [corrMatrix, corrCell, if_pos (Or.inl (hv i))]

/-- C7: when the loaded dataset is empty, the render pass produces exactly
the user-facing error message and halts: whatever page or column selection
is active, the result is the error — never a rendered page — so no filter,
aggregation or chart code runs on the empty dataset. -/
theorem empty_dataset_halts (sel : List String) (page : Page) (col : UniCol) :
    renderPass [] sel page col = .error loadErrorMsg
    ∧ ∀ out : PageOut, renderPass [] sel page col ≠ .ok out := by
  have h : renderPass [] sel page col = .error loadErrorMsg := by
    rw [renderPass, if_neg (by simp)]
  exact ⟨h, fun out hok => by rw [h] at hok; exact Except.noConfusion hok⟩

/-- C8: `load_data` uses the parquet read when it succeeds; on any parquet
failure it silently retries the csv read; if both fail the error
propagates (an `Except.error`, never a dataset); and on either success the
`'Unnamed: 0'` artifact column is dropped if present — the returned column
names are exactly the read ones minus `'Unnamed: 0'`. -/
theorem load_data_spec (c : Option (List (String × List String)))
    (d : List (String × List String)) :
    load_data (some d) c = .ok (dropUnnamed d)
    ∧ load_data none (some d) = .ok (dropUnnamed d)
    ∧ (∃ e, load_data none none = .error e)
    ∧ (dropUnnamed d).map Prod.fst
        = (d.map Prod.fst).filter (fun n => !(n == "Unnamed: 0")) := by
  refine ⟨rfl, rfl, ⟨_, rfl⟩, ?_⟩
  rw [dropUnnamed]
  by_cases h : d.any (fun c => c.1 == "Unnamed: 0")
  · rw [if_pos h, List.filter_map]
    rfl
  · rw [if_neg h]
    refine (List.filter_eq_self.mpr ?_).symm
    intro n hn
    rcases List.mem_map.mp hn with ⟨col, hcol, rfl⟩
    simp only [List.any_eq_true, not_exists] at h
    have hb : (col.1 == "Unnamed: 0") = false := by
      by_contra hb'
      simp only [Bool.not_eq_false] at hb'
      exact h col ⟨hcol, hb'⟩
    simp [hb]

/-- C10: for every non-empty dataset and non-empty selection drawn from the
dataset's own distinct location values (which is exactly what the location
multiselect offers as options), the filtered view is non-empty, and the
treemap's empty-view warning branch is not taken. -/
theorem treemap_warning_unreachable (df : List Row) (sel : List String)
    (_hdf : df ≠ []) (hsel : sel ≠ [])
    (hopts : ∀ s ∈ sel, s ∈ df.map Row.location) :
    dfFiltered df sel ≠ [] ∧ treemapRender (dfFiltered df sel) ≠ TreemapOut.warning := by
  have hne : dfFiltered df sel ≠ [] := by
    rcases List.exists_mem_of_ne_nil sel hsel with ⟨s, hs⟩
    rcases List.mem_map.mp (hopts s hs) with ⟨r, hr, hrl⟩
    have hmem : r ∈ dfFiltered df sel := by
      rw [dfFiltered, if_pos hsel]
      exact List.mem_filter.mpr ⟨hr, by simpa [hrl] using hs⟩
    exact List.ne_nil_of_mem hmem
  refine ⟨hne, ?_⟩
  rw [treemapRender, if_pos hne]
  exact fun h => TreemapOut.noConfusion h

/-- Witness for C10 at a concrete one-row dataset with its own location
selected. -/
theorem treemap_warning_unreachable_witness :
    dfFiltered [wr1] ["A"] ≠ []
    ∧ treemapRender (dfFiltered [wr1] ["A"]) ≠ TreemapOut.warning :=
  treemap_warning_unreachable [wr1] ["A"] (by decide) (by decide) (by decide)

end Zomato
